import Mathlib

/-!
# Verification of the error-classification and race-safe enumeration layer
of the SunOS process-introspection module (`psutil/_pssunos.py`).

The Python module is shallowly embedded: each accessor of the `Process`
class becomes a Lean function over an explicit environment `Env` of OS
oracles (the `/proc` filesystem reads, the native counter calls, the
priority get/set capability).  Python exceptions are modelled by the
`PyErr` type and fallible calls return `Except PyErr α`.
-/

namespace Pssunos

/-- The errno values used by the module (`errno.EPERM`, `errno.ENOENT`,
`errno.ESRCH`, `errno.EACCES`; identical numeric values on Solaris and
Linux). -/
def EPERM : Nat := 1
def ENOENT : Nat := 2
def ESRCH : Nat := 3
def EACCES : Nat := 13

/-- Python exceptions that the embedded code can raise.
`envError e` is an `EnvironmentError`/`OSError` carrying errno `e`;
`noSuchProcess`/`accessDenied` are the two domain error kinds from
`psutil._error`; `valueError` models `ValueError`; `keyError` models a
failing dict lookup (`TCP_STATUSES[status]`); `attributeError` models a
failing attribute lookup on an object. -/
inductive PyErr where
  | envError (errno : Nat)
  | noSuchProcess (pid : Int) (pname : Option String)
  | accessDenied (pid : Int) (pname : Option String)
  | valueError (msg : String)
  | keyError (key : Int)
  | attributeError (attr : String)
  deriving DecidableEq, Repr

/-- A raw memory-map entry as returned by
`_psutil_sunos.get_proc_memory_maps`:
`(addr, addrsize, perm, name, rss, anon, locked)`. -/
abbrev RawMMap := Nat × Nat × String × String × Int × Int × Int

/-- A raw connection entry as returned by
`_psutil_sunos.get_proc_connections`:
`(fd, fam, type, laddr, raddr, status)` with `status` a raw numeric
TCP state code. -/
abbrev RawConn := Int × Int × Int × String × String × Int

/-- A finished connection record (`nt_proc_conn`): same shape but with the
status mapped to its symbolic string form. -/
abbrev ConnRec := Int × Int × Int × String × String × String

/-- The OS oracles consumed by the `Process` accessors.  Each field stands
for one opaque external capability (a `/proc` read, a native call, the
`pfiles` fallback); a call either returns a value or raises a `PyErr`
(normally an `envError`). -/
structure Env where
  /-- `_psutil_posix.getpriority(pid)` -/
  getpriority : Int → Except PyErr Int
  /-- `_psutil_posix.setpriority(pid, value)` -/
  setpriority : Int → Int → Except PyErr Unit
  /-- `_psposix.pid_exists(pid)` (the existence-verification oracle) -/
  pid_exists : Int → Bool
  /-- `_psutil_sunos.get_proc_name_and_args(pid)`: `(name, args)` -/
  get_proc_name_and_args : Int → Except PyErr (String × String)
  /-- `os.listdir('/proc/<pid>/lwp')`, entries already converted by `int` -/
  listdir_lwp : Int → Except PyErr (List Int)
  /-- `_psutil_sunos.query_process_thread(pid, tid)`: `(utime, stime)` -/
  query_process_thread : Int → Int → Except PyErr (Int × Int)
  /-- `os.stat('/proc/<pid>')`; raises `envError ENOENT` when gone -/
  stat_proc : Int → Except PyErr Unit
  /-- `os.listdir('/proc/<pid>/fd')`, entries already converted by `int` -/
  listdir_fd : Int → Except PyErr (List Int)
  /-- `os.path.islink('/proc/<pid>/path/<fd>')` (never raises) -/
  islink : Int → Int → Bool
  /-- `os.readlink('/proc/<pid>/path/<fd>')` -/
  readlink_fd : Int → Int → Except PyErr String
  /-- `_common.isfile_strict(path)` (external helper; may raise) -/
  isfile_strict : String → Except PyErr Bool
  /-- `_psutil_sunos.get_proc_memory_maps(pid)` -/
  get_proc_memory_maps : Int → Except PyErr (List RawMMap)
  /-- `os.readlink('/proc/<pid>/path/<name>')` for memory-map names -/
  readlink_path : Int → String → Except PyErr String
  /-- `_psutil_sunos.get_proc_connections(pid, families, types)` -/
  get_proc_connections : Int → List Int → List Int → Except PyErr (List RawConn)
  /-- the unix-domain socket fallback (`pfiles` invocation and parsing);
  the spec treats this external command path as an opaque collaborator -/
  unix_sockets : Int → Except PyErr (List ConnRec)

/-- `wrap_exceptions` (lines 195-213): calls the wrapped operation and
translates an `EnvironmentError` with errno ENOENT/ESRCH into
`NoSuchProcess(pid, name)`, EPERM/EACCES into `AccessDenied(pid, name)`;
any other outcome (success or a different exception) passes through. -/
def wrap_exceptions {α : Type} (pid : Int) (pname : Option String)
    (result : Except PyErr α) : Except PyErr α :=
  match result with
  | .error (.envError e) =>
      if e = ENOENT ∨ e = ESRCH then .error (.noSuchProcess pid pname)
      else if e = EPERM ∨ e = EACCES then .error (.accessDenied pid pname)
      else .error (.envError e)
  | r => r

/-- The `Process` handle (lines 216-223): slots `pid` and `_process_name`. -/
structure Process where
  pid : Int
  _process_name : Option String
  deriving DecidableEq, Repr

/-- `Process.__init__` (lines 221-223): stores the pid and initializes the
cached name to `None`; no OS access, total for every pid. -/
def Process.init (pid : Int) : Process :=
  { pid := pid, _process_name := none }

/-- The attribute names defined on the `Process` class (its two `__slots__`
plus every method defined in the class body); attribute lookup on a
`Process` instance succeeds exactly for these. -/
def processAttributes : List String :=
  ["pid", "_process_name",
   "get_name", "get_exe", "get_cmdline", "get_create_time",
   "get_num_threads", "get_nice", "set_proc_nice", "get_ppid",
   "get_uids", "get_gids", "get_cpu_times", "get_terminal",
   "get_cwd", "get_memory_info", "get_ext_memory_info", "get_status",
   "get_threads", "get_open_files", "_get_unix_sockets",
   "get_connections", "get_memory_maps", "get_num_fds",
   "get_num_ctx_switches", "process_wait"]

/-- `Process.get_name` (lines 225-228). -/
def Process.get_name (env : Env) (self : Process) : Except PyErr String :=
  wrap_exceptions self.pid self._process_name <|
    match env.get_proc_name_and_args self.pid with
    | .ok (name, _) => .ok name
    | .error e => .error e

/-- `Process.get_cmdline` (lines 238-240):
`get_proc_name_and_args(pid)[1].split(' ')`. -/
def Process.get_cmdline (env : Env) (self : Process) : Except PyErr (List String) :=
  wrap_exceptions self.pid self._process_name <|
    match env.get_proc_name_and_args self.pid with
    | .ok (_, args) => .ok (args.splitOn " ")
    | .error e => .error e

/-- `Process.get_exe` (lines 230-236).  The body reads
`self.get_proc_cmdline()`: Python resolves the attribute
`get_proc_cmdline` on the instance first, and only calls the command-line
reader if that lookup succeeds.  (The class defines `get_cmdline`, not
`get_proc_cmdline`.) -/
def Process.get_exe (env : Env) (self : Process) : Except PyErr String :=
  wrap_exceptions self.pid self._process_name <|
    if "get_proc_cmdline" ∈ processAttributes then
      match env.get_proc_name_and_args self.pid with
      | .ok (_, _) => .ok ""
      | .error e => .error e
    else
      .error (.attributeError "get_proc_cmdline")

/-- `Process.get_nice` (lines 250-266): `getpriority`, and on an
`EnvironmentError` with errno ENOENT/ESRCH raise `AccessDenied` when the
process provably exists, otherwise re-raise (the outer `wrap_exceptions`
then classifies the re-raised errno). -/
def Process.get_nice (env : Env) (self : Process) : Except PyErr Int :=
  wrap_exceptions self.pid self._process_name <|
    match env.getpriority self.pid with
    | .ok v => .ok v
    | .error (.envError e) =>
        if (e = ENOENT ∨ e = ESRCH) ∧ env.pid_exists self.pid then
          .error (.accessDenied self.pid self._process_name)
        else
          .error (.envError e)
    | .error e => .error e

/-- `Process.set_proc_nice` (lines 268-276): pids 2 and 3 are rejected with
`AccessDenied` before the underlying `setpriority` write. -/
def Process.set_proc_nice (env : Env) (self : Process) (value : Int) :
    Except PyErr Unit :=
  wrap_exceptions self.pid self._process_name <|
    if self.pid = 2 ∨ self.pid = 3 then
      .error (.accessDenied self.pid self._process_name)
    else
      env.setpriority self.pid value

/-- The `for tid in tids` loop of `Process.get_threads` (lines 352-367):
returns the accumulated `(tid, utime, stime)` records and the
`hit_enoent` flag; a per-entry `envError ENOENT` is skipped (flag set),
any other per-entry exception propagates. -/
def threads_loop (query : Int → Except PyErr (Int × Int)) :
    List Int → Except PyErr (List (Int × Int × Int) × Bool)
  | [] => .ok ([], false)
  | tid :: rest =>
    match query tid with
    | .ok (u, s) =>
        match threads_loop query rest with
        | .ok (l, hit) => .ok ((tid, u, s) :: l, hit)
        | .error e => .error e
    | .error (.envError e) =>
        if e = ENOENT then
          match threads_loop query rest with
          | .ok (l, _) => .ok (l, true)
          | .error e2 => .error e2
        else .error (.envError e)
    | .error e => .error e

/-- `Process.get_threads` (lines 348-371): list the lwp directory, read each
thread's times skipping vanished threads, and when any entry vanished
re-check the process itself with `os.stat` before returning. -/
def Process.get_threads (env : Env) (self : Process) :
    Except PyErr (List (Int × Int × Int)) :=
  wrap_exceptions self.pid self._process_name <|
    match env.listdir_lwp self.pid with
    | .error e => .error e
    | .ok tids =>
      match threads_loop (env.query_process_thread self.pid) tids with
      | .error e => .error e
      | .ok (ret, hit) =>
        if hit then
          match env.stat_proc self.pid with
          | .error e => .error e
          | .ok () => .ok ret
        else .ok ret

/-- The `for fd in ...` loop of `Process.get_open_files` (lines 378-392):
returns the accumulated `(path, fd)` records and the `hit_enoent` flag.
Non-links are ignored, a vanished link (`envError ENOENT` from readlink)
is skipped with the flag set, and only paths passing `isfile_strict` are
kept. -/
def files_loop (env : Env) (pid : Int) :
    List Int → Except PyErr (List (String × Int) × Bool)
  | [] => .ok ([], false)
  | fd :: rest =>
    if env.islink pid fd then
      match env.readlink_fd pid fd with
      | .ok file =>
          match env.isfile_strict file with
          | .ok b =>
              match files_loop env pid rest with
              | .ok (l, hit) => .ok (if b then (file, fd) :: l else l, hit)
              | .error e2 => .error e2
          | .error e => .error e
      | .error (.envError e) =>
          if e = ENOENT then
            match files_loop env pid rest with
            | .ok (l, _) => .ok (l, true)
            | .error e2 => .error e2
          else .error (.envError e)
      | .error e => .error e
    else
      files_loop env pid rest

/-- `Process.get_open_files` (lines 373-396): list the fd directory, resolve
each link skipping vanished files, and when any entry vanished re-check
the process itself with `os.stat` before returning. -/
def Process.get_open_files (env : Env) (self : Process) :
    Except PyErr (List (String × Int)) :=
  wrap_exceptions self.pid self._process_name <|
    match env.listdir_fd self.pid with
    | .error e => .error e
    | .ok fds =>
      match files_loop env self.pid fds with
      | .error e => .error e
      | .ok (ret, hit) =>
        if hit then
          match env.stat_proc self.pid with
          | .error e => .error e
          | .ok () => .ok ret
        else .ok ret

/-- Python `str.startswith(prefix)`, computed on the character lists (the
built-in `String.startsWith` does not reduce in the kernel). -/
def py_startswith (s pre : String) : Bool :=
  pre.data.isPrefixOf s.data

/-- The `toaddr` helper of `Process.get_memory_maps` (lines 468-470):
`'%s-%s' % (hex(start)[2:], hex(end)[2:])` with lowercase hex digits. -/
def toaddr (s e : Nat) : String :=
  String.mk (Nat.toDigits 16 s) ++ "-" ++ String.mk (Nat.toDigits 16 e)

/-- A finished memory-map record:
`(addr, perm, name, rss, anon, locked)`. -/
abbrev MMapRec := String × String × String × Int × Int × Int

/-- The `for item in rawlist` loop of `Process.get_memory_maps`
(lines 475-494): every raw entry is appended; a name not starting with
`'['` is resolved through readlink, and when readlink fails with
`envError ENOENT`, the unresolved link path
`/proc/<pid>/path/<name>` is used instead and the `hit_enoent` flag is
set — the entry is still appended. -/
def mmap_loop (env : Env) (pid : Int) :
    List RawMMap → Except PyErr (List MMapRec × Bool)
  | [] => .ok ([], false)
  | (addr, addrsize, perm, name, rss, anon, locked) :: rest =>
    let a := toaddr addr addrsize
    if py_startswith name "[" then
      match mmap_loop env pid rest with
      | .ok (l, hit) => .ok ((a, perm, name, rss, anon, locked) :: l, hit)
      | .error e => .error e
    else
      match env.readlink_path pid name with
      | .ok nm =>
          match mmap_loop env pid rest with
          | .ok (l, hit) => .ok ((a, perm, nm, rss, anon, locked) :: l, hit)
          | .error e => .error e
      | .error (.envError e) =>
          if e = ENOENT then
            let nm := "/proc/" ++ toString pid ++ "/path/" ++ name
            match mmap_loop env pid rest with
            | .ok (l, _) => .ok ((a, perm, nm, rss, anon, locked) :: l, true)
            | .error e2 => .error e2
          else .error (.envError e)
      | .error e => .error e

/-- `Process.get_memory_maps` (lines 466-498): read the raw map list,
resolve each named entry, and when any link failed to resolve re-check
the process itself with `os.stat` before returning. -/
def Process.get_memory_maps (env : Env) (self : Process) :
    Except PyErr (List MMapRec) :=
  wrap_exceptions self.pid self._process_name <|
    match env.get_proc_memory_maps self.pid with
    | .error e => .error e
    | .ok rawlist =>
      match mmap_loop env self.pid rawlist with
      | .error e => .error e
      | .ok (ret, hit) =>
        if hit then
          match env.stat_proc self.pid with
          | .error e => .error e
          | .ok () => .ok ret
        else .ok ret

/-- Modelled from the spec: the address-family and socket-type constants of
the `socket` module (external to `src/`); only their distinctness and the
identity of `AF_UNIX` matter to the claims.  Values follow the Solaris
ABI. -/
def AF_INET : Int := 2
def AF_INET6 : Int := 26
def AF_UNIX : Int := 1
def SOCK_STREAM : Int := 2
def SOCK_DGRAM : Int := 1

/-- Modelled from the spec: `psutil._common.conn_tmap` (the fixed supported
set of connection-kind filters, each selecting a subset of address
families and socket types; `_common.py` is not under `src/`). -/
def conn_tmap : List (String × (List Int × List Int)) :=
  [("all", ([AF_INET, AF_INET6, AF_UNIX], [SOCK_STREAM, SOCK_DGRAM])),
   ("tcp", ([AF_INET, AF_INET6], [SOCK_STREAM])),
   ("tcp4", ([AF_INET], [SOCK_STREAM])),
   ("tcp6", ([AF_INET6], [SOCK_STREAM])),
   ("udp", ([AF_INET, AF_INET6], [SOCK_DGRAM])),
   ("udp4", ([AF_INET], [SOCK_DGRAM])),
   ("udp6", ([AF_INET6], [SOCK_DGRAM])),
   ("inet", ([AF_INET, AF_INET6], [SOCK_STREAM, SOCK_DGRAM])),
   ("inet4", ([AF_INET], [SOCK_STREAM, SOCK_DGRAM])),
   ("inet6", ([AF_INET6], [SOCK_STREAM, SOCK_DGRAM])),
   ("unix", ([AF_UNIX], [SOCK_STREAM, SOCK_DGRAM]))]

/-- Modelled from the spec: the raw TCP state codes exported by the native
`_psutil_sunos` module (not under `src/`); the claims only need them to
be distinct.  Values follow the Solaris `tcp.h` state numbering, with
`PSUTIL_CONN_NONE` a module-private sentinel. -/
def TCPS_CLOSED : Int := -6
def TCPS_IDLE : Int := -5
def TCPS_BOUND : Int := -4
def TCPS_LISTEN : Int := -3
def TCPS_SYN_SENT : Int := -2
def TCPS_SYN_RCVD : Int := -1
def TCPS_ESTABLISHED : Int := 0
def TCPS_CLOSE_WAIT : Int := 1
def TCPS_FIN_WAIT_1 : Int := 2
def TCPS_CLOSING : Int := 3
def TCPS_LAST_ACK : Int := 4
def TCPS_FIN_WAIT_2 : Int := 5
def TCPS_TIME_WAIT : Int := 6
def PSUTIL_CONN_NONE : Int := 128

/-- `TCP_STATUSES` (lines 45-60): the fixed table from raw status codes to
symbolic connection statuses.  The symbolic names are the
`psutil._common.CONN_*` string constants (spec section 3 lists the closed
enumeration); `CONN_IDLE` and `CONN_BOUND` are defined in this module
(lines 32-33). -/
def TCP_STATUSES : List (Int × String) :=
  [(TCPS_ESTABLISHED, "ESTABLISHED"),
   (TCPS_SYN_SENT, "SYN_SENT"),
   (TCPS_SYN_RCVD, "SYN_RECV"),
   (TCPS_FIN_WAIT_1, "FIN_WAIT1"),
   (TCPS_FIN_WAIT_2, "FIN_WAIT2"),
   (TCPS_TIME_WAIT, "TIME_WAIT"),
   (TCPS_CLOSED, "CLOSE"),
   (TCPS_CLOSE_WAIT, "CLOSE_WAIT"),
   (TCPS_LAST_ACK, "LAST_ACK"),
   (TCPS_LISTEN, "LISTEN"),
   (TCPS_CLOSING, "CLOSING"),
   (PSUTIL_CONN_NONE, "NONE"),
   (TCPS_IDLE, "IDLE"),
   (TCPS_BOUND, "BOUND")]

/-- The `ValueError` message of `Process.get_connections` (lines 433-434):
`"invalid %r kind argument; choose between %s"` with the supported kinds
joined by `', '`. -/
def pyrepr (s : String) : String :=
  "\x27" ++ s ++ "\x27"

def invalid_kind_msg (kind : String) : String :=
  "invalid " ++ pyrepr kind ++ " kind argument; choose between " ++
    String.intercalate ", " (conn_tmap.map fun kv => pyrepr kv.1)

/-- The `for item in rawlist` loop of `Process.get_connections`
(lines 446-455): entries whose family or type is outside the requested
sets are skipped; each kept entry's raw status is looked up in
`TCP_STATUSES` (a missing code raises `KeyError`, modelled by
`keyError`). -/
def conn_loop (families types : List Int) :
    List RawConn → Except PyErr (List ConnRec)
  | [] => .ok []
  | (fd, fam, ty, laddr, raddr, status) :: rest =>
    if fam ∈ families then
      if ty ∈ types then
        match TCP_STATUSES.lookup status with
        | none => .error (.keyError status)
        | some st =>
            match conn_loop families types rest with
            | .ok l => .ok ((fd, fam, ty, laddr, raddr, st) :: l)
            | .error e => .error e
      else conn_loop families types rest
    else conn_loop families types rest

/-- `Process.get_connections` (lines 430-461): validate the kind against
`conn_tmap` (a `ValueError` on an unsupported kind, raised before any
enumeration), fetch the pre-filtered raw list, resolve an empty raw list
with an `os.stat` existence check, re-filter and map statuses, and
append the unix-socket fallback when `AF_UNIX` was requested. -/
def Process.get_connections (env : Env) (self : Process)
    (kind : String := "inet") : Except PyErr (List ConnRec) :=
  wrap_exceptions self.pid self._process_name <|
    match conn_tmap.lookup kind with
    | none => .error (.valueError (invalid_kind_msg kind))
    | some (families, types) =>
      match env.get_proc_connections self.pid families types with
      | .error e => .error e
      | .ok rawlist =>
        match (if rawlist = [] then env.stat_proc self.pid else .ok ()) with
        | .error e => .error e
        | .ok () =>
          match conn_loop families types rawlist with
          | .error e => .error e
          | .ok ret =>
            if AF_UNIX ∈ families then
              match env.unix_sockets self.pid with
              | .error e => .error e
              | .ok ux => .ok (ret ++ ux)
            else .ok ret

/-- A concrete, fully benign environment, used to instantiate universally
quantified theorems at explicit inputs. -/
def demoEnv : Env :=
  { getpriority := fun _ => .ok 0
    setpriority := fun _ _ => .ok ()
    pid_exists := fun _ => true
    get_proc_name_and_args := fun _ => .ok ("name", "a b")
    listdir_lwp := fun _ => .ok [1]
    query_process_thread := fun _ _ => .ok (4, 5)
    stat_proc := fun _ => .ok ()
    listdir_fd := fun _ => .ok [3]
    islink := fun _ _ => true
    readlink_fd := fun _ _ => .ok "/tmp/f"
    isfile_strict := fun _ => .ok true
    get_proc_memory_maps := fun _ => .ok []
    readlink_path := fun _ _ => .ok "/tmp/g"
    get_proc_connections := fun _ _ _ => .ok []
    unix_sockets := fun _ => .ok [] }

/-- An environment with a single memory-map entry whose link resolution
fails with ENOENT while the process stays alive. -/
def mmapMissEnv : Env :=
  { demoEnv with
    get_proc_memory_maps := fun _ => .ok [(0, 0, "r", "f", 0, 0, 0)]
    readlink_path := fun _ _ => .error (.envError ENOENT) }

/-- An environment where every per-entry detail read fails with ENOENT and
the post-loop `os.stat` existence check fails with ENOENT as well (the
process died mid-enumeration). -/
def goneEnv : Env :=
  { demoEnv with
    query_process_thread := fun _ _ => .error (.envError ENOENT)
    readlink_fd := fun _ _ => .error (.envError ENOENT)
    get_proc_memory_maps := fun _ => .ok [(0, 0, "r", "f", 0, 0, 0)]
    readlink_path := fun _ _ => .error (.envError ENOENT)
    stat_proc := fun _ => .error (.envError ENOENT) }

/-- An environment whose raw connection list contains one entry carrying a
status code outside the `TCP_STATUSES` table. -/
def connBadEnv : Env :=
  { demoEnv with
    get_proc_connections := fun _ _ _ =>
      .ok [(4, AF_INET, SOCK_STREAM, "a", "b", 99)] }

/-- C1: `wrap_exceptions` translates a low-level failure with errno
ENOENT/ESRCH into `NoSuchProcess(pid, cachedName)` and EPERM/EACCES into
`AccessDenied(pid, cachedName)`; every other errno, and every non-I/O
exception, is re-raised unmodified; a success passes through unchanged. -/
theorem wrap_exceptions_classifies (pid : Int) (pname : Option String)
    {α : Type} (v : α) (e : Nat) (err : PyErr) :
    wrap_exceptions pid pname (Except.ok v) = Except.ok v
    ∧ (e = ENOENT ∨ e = ESRCH →
        wrap_exceptions pid pname (Except.error (PyErr.envError e) : Except PyErr α)
          = Except.error (PyErr.noSuchProcess pid pname))
    ∧ (e = EPERM ∨ e = EACCES →
        wrap_exceptions pid pname (Except.error (PyErr.envError e) : Except PyErr α)
          = Except.error (PyErr.accessDenied pid pname))
    ∧ (e ≠ ENOENT → e ≠ ESRCH → e ≠ EPERM → e ≠ EACCES →
        wrap_exceptions pid pname (Except.error (PyErr.envError e) : Except PyErr α)
          = Except.error (PyErr.envError e))
    ∧ ((∀ n, err ≠ PyErr.envError n) →
        wrap_exceptions pid pname (Except.error err : Except PyErr α)
          = Except.error err) := by
  refine ⟨rfl, ?_, ?_, ?_, ?_⟩
  · rintro (h | h) <;> subst h <;> rfl
  · rintro (h | h) <;> subst h <;> rfl
  · intro h1 h2 h3 h4
    simp only [wrap_exceptions]
    rw [if_neg (by rintro (h | h) <;> [exact h1 h; exact h2 h]),
        if_neg (by rintro (h | h) <;> [exact h3 h; exact h4 h])]
  · intro h
    cases err with
    | envError n => exact absurd rfl (h n)
    | noSuchProcess p n => rfl
    | accessDenied p n => rfl
    | valueError m => rfl
    | keyError k => rfl
    | attributeError a => rfl

/-- Witness for C1 at concrete inputs. -/
theorem wrap_exceptions_classifies_witness :
    wrap_exceptions 7 (some "x") (Except.error (PyErr.envError 2) : Except PyErr Nat)
      = Except.error (PyErr.noSuchProcess 7 (some "x"))
    ∧ wrap_exceptions 7 (some "x") (Except.error (PyErr.envError 13) : Except PyErr Nat)
      = Except.error (PyErr.accessDenied 7 (some "x"))
    ∧ wrap_exceptions 7 (some "x") (Except.error (PyErr.envError 5) : Except PyErr Nat)
      = Except.error (PyErr.envError 5)
    ∧ wrap_exceptions 7 (some "x") (Except.error (PyErr.valueError "m") : Except PyErr Nat)
      = Except.error (PyErr.valueError "m") :=
  ⟨(wrap_exceptions_classifies 7 (some "x") 0 2 (PyErr.valueError "m")).2.1 (Or.inl rfl),
   (wrap_exceptions_classifies 7 (some "x") 0 13 (PyErr.valueError "m")).2.2.1 (Or.inr rfl),
   (wrap_exceptions_classifies 7 (some "x") 0 5 (PyErr.valueError "m")).2.2.2.1
     (by decide) (by decide) (by decide) (by decide),
   (wrap_exceptions_classifies 7 (some "x") 0 5 (PyErr.valueError "m")).2.2.2.2
     (by intro n h; cases h)⟩

/-- C7: a priority mutation against pid 2 or pid 3 raises `AccessDenied`
immediately, for every value and every environment (in particular the
underlying `setpriority` write is never consulted). -/
theorem set_proc_nice_pid_2_3 (env : Env) (pid : Int) (pname : Option String)
    (value : Int) (h : pid = 2 ∨ pid = 3) :
    Process.set_proc_nice env ⟨pid, pname⟩ value
      = Except.error (PyErr.accessDenied pid pname) := by
  rcases h with h | h <;> subst h <;> rfl

/-- Witness for C7 at pid 2 and a concrete environment. -/
theorem set_proc_nice_pid_2_3_witness :
    Process.set_proc_nice demoEnv ⟨2, none⟩ 5
      = Except.error (PyErr.accessDenied 2 none) :=
  set_proc_nice_pid_2_3 demoEnv 2 none 5 (Or.inl rfl)

/-- C8: when the priority read fails with errno ENOENT or ESRCH, the
accessor raises `AccessDenied` if the independent existence check says
the process is alive, and `NoSuchProcess` (via the classifier) if it is
gone. -/
theorem get_nice_enoent_quirk (env : Env) (pid : Int) (pname : Option String)
    (e : Nat) (hq : env.getpriority pid = Except.error (PyErr.envError e))
    (he : e = ENOENT ∨ e = ESRCH) :
    (env.pid_exists pid = true →
       Process.get_nice env ⟨pid, pname⟩
         = Except.error (PyErr.accessDenied pid pname))
    ∧ (env.pid_exists pid = false →
       Process.get_nice env ⟨pid, pname⟩
         = Except.error (PyErr.noSuchProcess pid pname)) := by
  constructor
  · intro hx
    simp only [Process.get_nice, hq]
    rw [if_pos ⟨he, hx⟩]
    rfl
  · intro hx
    simp only [Process.get_nice, hq]
    rw [if_neg (by simp [hx])]
    rcases he with h | h <;> subst h <;> rfl

/-- Witness for C8: a concrete environment whose priority read fails with
ESRCH for a live process. -/
theorem get_nice_enoent_quirk_witness :
    Process.get_nice
        { demoEnv with getpriority := fun _ => .error (.envError 3) } ⟨1, none⟩
      = Except.error (PyErr.accessDenied 1 none) :=
  (get_nice_enoent_quirk
    { demoEnv with getpriority := fun _ => .error (.envError 3) }
    1 none 3 rfl (Or.inr rfl)).1 rfl

/-- C9 (code bug): `get_exe` never reaches the command-line read — the body
calls `self.get_proc_cmdline()`, an attribute the `Process` class does
not define (the method is named `get_cmdline`), so for every pid and
every environment the accessor raises `AttributeError`, which the
classifier passes through; it never returns the empty string. -/
theorem get_exe_attribute_error (env : Env) (pid : Int) (pname : Option String) :
    Process.get_exe env ⟨pid, pname⟩
      = Except.error (PyErr.attributeError "get_proc_cmdline")
    ∧ Process.get_exe env ⟨pid, pname⟩ ≠ Except.ok "" := by
  constructor
  · rfl
  · intro h
    simp [Process.get_exe, wrap_exceptions, processAttributes] at h

/-- C10: constructing a `Process` handle is a total pure function of the
pid — for every pid (live or not) it succeeds, stores exactly that pid
and initializes the cached name to the absent value. -/
theorem process_init_stores_pid (pid : Int) :
    Process.init pid = { pid := pid, _process_name := none }
    ∧ (Process.init pid).pid = pid
    ∧ (Process.init pid)._process_name = none :=
  ⟨rfl, rfl, rfl⟩

/-- When every per-thread read either succeeds or fails with ENOENT, the
thread loop completes: it keeps exactly the successful entries and its
`hit_enoent` flag records whether any entry failed. -/
theorem threads_loop_total (q : Int → Except PyErr (Int × Int)) (tids : List Int)
    (h : ∀ tid ∈ tids, q tid = Except.error (PyErr.envError ENOENT)
           ∨ ∃ u s, q tid = Except.ok (u, s)) :
    threads_loop q tids =
      Except.ok
        (tids.filterMap fun tid =>
           match q tid with
           | .ok (u, s) => some (tid, u, s)
           | _ => none,
         tids.any fun tid =>
           match q tid with
           | .error _ => true
           | _ => false) := by
  induction tids with
  | nil => rfl
  | cons t rest ih =>
    have ht := h t (List.mem_cons_self t rest)
    have hrest := ih fun tid htid => h tid (List.mem_cons_of_mem t htid)
    rcases ht with ht | ⟨u, s, ht⟩
    · simp [threads_loop, ht, hrest]
    · simp [threads_loop, ht, hrest]

/-- When every link either resolves or fails with ENOENT and `isfile_strict`
never raises, the fd loop completes: it keeps exactly the resolved
regular files and its `hit_enoent` flag records whether any link
vanished. -/
theorem files_loop_total (env : Env) (pid : Int) (fds : List Int)
    (h1 : ∀ fd ∈ fds, env.islink pid fd = true →
            env.readlink_fd pid fd = Except.error (PyErr.envError ENOENT)
            ∨ ∃ f, env.readlink_fd pid fd = Except.ok f)
    (h2 : ∀ s, ∃ b, env.isfile_strict s = Except.ok b) :
    files_loop env pid fds =
      Except.ok
        (fds.filterMap fun fd =>
           if env.islink pid fd then
             match env.readlink_fd pid fd with
             | .ok f =>
               match env.isfile_strict f with
               | .ok true => some (f, fd)
               | _ => none
             | _ => none
           else none,
         fds.any fun fd =>
           env.islink pid fd &&
             match env.readlink_fd pid fd with
             | .error _ => true
             | _ => false) := by
  induction fds with
  | nil => rfl
  | cons fd rest ih =>
    have hrest := ih fun x hx => h1 x (List.mem_cons_of_mem fd hx)
    by_cases hl : env.islink pid fd = true
    · rcases h1 fd (List.mem_cons_self fd rest) hl with hr | ⟨f, hr⟩
      · simp [files_loop, hl, hr, hrest]
      · obtain ⟨b, hb⟩ := h2 f
        cases b <;> simp [files_loop, hl, hr, hb, hrest]
    · simp only [Bool.not_eq_true] at hl
      simp [files_loop, hl, hrest]

/-- When every link resolution of a named map entry either succeeds or fails
with ENOENT, the memory-map loop completes: every raw entry is kept (a
failed resolution substitutes the unresolved link path) and the
`hit_enoent` flag records whether any resolution failed. -/
theorem mmap_loop_total (env : Env) (pid : Int) (rawlist : List RawMMap)
    (h : ∀ a sz pm nm rss an lk, (a, sz, pm, nm, rss, an, lk) ∈ rawlist →
           py_startswith nm "[" = false →
           env.readlink_path pid nm = Except.error (PyErr.envError ENOENT)
           ∨ ∃ r, env.readlink_path pid nm = Except.ok r) :
    mmap_loop env pid rawlist =
      Except.ok
        (rawlist.map fun item =>
           match item with
           | (a, sz, pm, nm, rss, an, lk) =>
             (toaddr a sz, pm,
              if py_startswith nm "[" then nm
              else
                match env.readlink_path pid nm with
                | .ok r => r
                | _ => "/proc/" ++ toString pid ++ "/path/" ++ nm,
              rss, an, lk),
         rawlist.any fun item =>
           match item with
           | (_, _, _, nm, _, _, _) =>
             !py_startswith nm "[" &&
               match env.readlink_path pid nm with
               | .error _ => true
               | _ => false) := by
  induction rawlist with
  | nil => rfl
  | cons item rest ih =>
    obtain ⟨a, sz, pm, nm, rss, an, lk⟩ := item
    have hrest := ih fun a' sz' pm' nm' rss' an' lk' hmem =>
      h a' sz' pm' nm' rss' an' lk' (List.mem_cons_of_mem _ hmem)
    by_cases hb : py_startswith nm "[" = true
    · simp [mmap_loop, hb, hrest]
    · simp only [Bool.not_eq_true] at hb
      rcases h a sz pm nm rss an lk (List.mem_cons_self _ rest) hb with hr | ⟨r, hr⟩
      · simp [mmap_loop, hb, hr, hrest]
      · simp [mmap_loop, hb, hr, hrest]

/-- C2 counterexample: the memory-map enumerator does NOT omit an entry
whose per-entry detail read (the link resolution) fails with ENOENT
while the process stays alive — it returns the entry with the unresolved
link path, so the claim's "omits only the failed entries" (which would
give the empty list here) is false. -/
theorem get_memory_maps_keeps_missed_entry :
    Process.get_memory_maps mmapMissEnv ⟨1, none⟩
      = Except.ok [("0-0", "r", "/proc/1/path/f", 0, 0, 0)]
    ∧ Process.get_memory_maps mmapMissEnv ⟨1, none⟩ ≠ Except.ok [] := by
  refine ⟨rfl, fun h => ?_⟩
  rw [show Process.get_memory_maps mmapMissEnv ⟨1, none⟩
        = Except.ok [("0-0", "r", "/proc/1/path/f", 0, 0, 0)] from rfl] at h
  simp at h

/-- C2 (amended): when per-entry detail reads fail with ENOENT for a subset
of entries while the process remains alive (the post-loop `os.stat`
succeeds), the thread and open-file enumerators return without error a
list omitting exactly the failed entries, while the memory-map
enumerator returns without error a list keeping every entry,
substituting the unresolved link path for a failed resolution. -/
theorem enumerators_skip_or_keep_on_miss :
    (∀ (env : Env) (pid : Int) (pname : Option String) (tids : List Int),
       env.listdir_lwp pid = Except.ok tids →
       (∀ tid ∈ tids,
          env.query_process_thread pid tid = Except.error (PyErr.envError ENOENT)
          ∨ ∃ u s, env.query_process_thread pid tid = Except.ok (u, s)) →
       env.stat_proc pid = Except.ok () →
       Process.get_threads env ⟨pid, pname⟩ =
         Except.ok (tids.filterMap fun tid =>
           match env.query_process_thread pid tid with
           | .ok (u, s) => some (tid, u, s)
           | _ => none))
    ∧ (∀ (env : Env) (pid : Int) (pname : Option String) (fds : List Int),
       env.listdir_fd pid = Except.ok fds →
       (∀ fd ∈ fds, env.islink pid fd = true →
          env.readlink_fd pid fd = Except.error (PyErr.envError ENOENT)
          ∨ ∃ f, env.readlink_fd pid fd = Except.ok f) →
       (∀ s, ∃ b, env.isfile_strict s = Except.ok b) →
       env.stat_proc pid = Except.ok () →
       Process.get_open_files env ⟨pid, pname⟩ =
         Except.ok (fds.filterMap fun fd =>
           if env.islink pid fd then
             match env.readlink_fd pid fd with
             | .ok f =>
               match env.isfile_strict f with
               | .ok true => some (f, fd)
               | _ => none
             | _ => none
           else none))
    ∧ (∀ (env : Env) (pid : Int) (pname : Option String) (rawlist : List RawMMap),
       env.get_proc_memory_maps pid = Except.ok rawlist →
       (∀ a sz pm nm rss an lk, (a, sz, pm, nm, rss, an, lk) ∈ rawlist →
          py_startswith nm "[" = false →
          env.readlink_path pid nm = Except.error (PyErr.envError ENOENT)
          ∨ ∃ r, env.readlink_path pid nm = Except.ok r) →
       env.stat_proc pid = Except.ok () →
       Process.get_memory_maps env ⟨pid, pname⟩ =
         Except.ok (rawlist.map fun item =>
           match item with
           | (a, sz, pm, nm, rss, an, lk) =>
             (toaddr a sz, pm,
              if py_startswith nm "[" then nm
              else
                match env.readlink_path pid nm with
                | .ok r => r
                | _ => "/proc/" ++ toString pid ++ "/path/" ++ nm,
              rss, an, lk))) := by
  refine ⟨?_, ?_, ?_⟩
  · intro env pid pname tids hl hq hs
    simp only [Process.get_threads, hl]
    rw [threads_loop_total _ _ hq]
    cases hflag : tids.any fun tid =>
        match env.query_process_thread pid tid with
        | .error _ => true
        | _ => false
    · simp [hflag, wrap_exceptions]
    · simp [hflag, hs, wrap_exceptions]
  · intro env pid pname fds hl hr hfs hs
    simp only [Process.get_open_files, hl]
    rw [files_loop_total _ _ _ hr hfs]
    cases hflag : fds.any fun fd =>
        env.islink pid fd &&
          match env.readlink_fd pid fd with
          | .error _ => true
          | _ => false
    · simp [hflag, wrap_exceptions]
    · simp [hflag, hs, wrap_exceptions]
  · intro env pid pname rawlist hl hr hs
    simp only [Process.get_memory_maps, hl]
    rw [mmap_loop_total _ _ _ hr]
    cases hflag : rawlist.any fun item =>
        match item with
        | (_, _, _, nm, _, _, _) =>
          !py_startswith nm "[" &&
            match env.readlink_path pid nm with
            | .error _ => true
            | _ => false
    · simp [hflag, wrap_exceptions]
    · simp [hflag, hs, wrap_exceptions]

/-- Witness for the amended C2: one concrete run of each enumerator — a
clean thread read, a clean open-file read, and a memory-map read whose
only entry misses but is kept with the unresolved link path. -/
theorem enumerators_skip_or_keep_on_miss_witness :
    Process.get_threads demoEnv ⟨1, none⟩ = Except.ok [(1, 4, 5)]
    ∧ Process.get_open_files demoEnv ⟨1, none⟩ = Except.ok [("/tmp/f", 3)]
    ∧ Process.get_memory_maps mmapMissEnv ⟨1, none⟩
        = Except.ok [("0-0", "r", "/proc/1/path/f", 0, 0, 0)] :=
  ⟨enumerators_skip_or_keep_on_miss.1 demoEnv 1 none [1] rfl
     (fun _ _ => Or.inr ⟨4, 5, rfl⟩) rfl,
   enumerators_skip_or_keep_on_miss.2.1 demoEnv 1 none [3] rfl
     (fun _ _ _ => Or.inr ⟨"/tmp/f", rfl⟩) (fun _ => ⟨true, rfl⟩) rfl,
   enumerators_skip_or_keep_on_miss.2.2 mmapMissEnv 1 none
     [(0, 0, "r", "f", 0, 0, 0)] rfl
     (fun _ _ _ _ _ _ _ _ _ => Or.inl rfl) rfl⟩

/-- C3: in each of the three enumerators, when some per-entry detail read
failed with ENOENT (the partial-miss flag is set) and the post-loop
existence check finds the process gone (`os.stat` raises ENOENT), the
call raises `NoSuchProcess` instead of returning the partial list. -/
theorem enumerators_raise_nsp_when_gone :
    (∀ (env : Env) (pid : Int) (pname : Option String) (tids : List Int),
       env.listdir_lwp pid = Except.ok tids →
       (∀ tid ∈ tids,
          env.query_process_thread pid tid = Except.error (PyErr.envError ENOENT)
          ∨ ∃ u s, env.query_process_thread pid tid = Except.ok (u, s)) →
       (∃ tid ∈ tids,
          env.query_process_thread pid tid = Except.error (PyErr.envError ENOENT)) →
       env.stat_proc pid = Except.error (PyErr.envError ENOENT) →
       Process.get_threads env ⟨pid, pname⟩ =
         Except.error (PyErr.noSuchProcess pid pname))
    ∧ (∀ (env : Env) (pid : Int) (pname : Option String) (fds : List Int),
       env.listdir_fd pid = Except.ok fds →
       (∀ fd ∈ fds, env.islink pid fd = true →
          env.readlink_fd pid fd = Except.error (PyErr.envError ENOENT)
          ∨ ∃ f, env.readlink_fd pid fd = Except.ok f) →
       (∀ s, ∃ b, env.isfile_strict s = Except.ok b) →
       (∃ fd ∈ fds, env.islink pid fd = true ∧
          env.readlink_fd pid fd = Except.error (PyErr.envError ENOENT)) →
       env.stat_proc pid = Except.error (PyErr.envError ENOENT) →
       Process.get_open_files env ⟨pid, pname⟩ =
         Except.error (PyErr.noSuchProcess pid pname))
    ∧ (∀ (env : Env) (pid : Int) (pname : Option String) (rawlist : List RawMMap),
       env.get_proc_memory_maps pid = Except.ok rawlist →
       (∀ a sz pm nm rss an lk, (a, sz, pm, nm, rss, an, lk) ∈ rawlist →
          py_startswith nm "[" = false →
          env.readlink_path pid nm = Except.error (PyErr.envError ENOENT)
          ∨ ∃ r, env.readlink_path pid nm = Except.ok r) →
       (∃ a sz pm nm rss an lk, (a, sz, pm, nm, rss, an, lk) ∈ rawlist ∧
          py_startswith nm "[" = false ∧
          env.readlink_path pid nm = Except.error (PyErr.envError ENOENT)) →
       env.stat_proc pid = Except.error (PyErr.envError ENOENT) →
       Process.get_memory_maps env ⟨pid, pname⟩ =
         Except.error (PyErr.noSuchProcess pid pname)) := by
  refine ⟨?_, ?_, ?_⟩
  · intro env pid pname tids hl hq hmiss hs
    obtain ⟨t, htmem, hterr⟩ := hmiss
    simp only [Process.get_threads, hl]
    rw [threads_loop_total _ _ hq]
    have hany : (tids.any fun tid =>
        match env.query_process_thread pid tid with
        | .error _ => true
        | _ => false) = true :=
      List.any_eq_true.mpr ⟨t, htmem, by rw [hterr]⟩
    simp [hany, hs, wrap_exceptions]
  · intro env pid pname fds hl hr hfs hmiss hs
    obtain ⟨fd, hfmem, hfl, hfe⟩ := hmiss
    simp only [Process.get_open_files, hl]
    rw [files_loop_total _ _ _ hr hfs]
    have hany : (fds.any fun fd =>
        env.islink pid fd &&
          match env.readlink_fd pid fd with
          | .error _ => true
          | _ => false) = true :=
      List.any_eq_true.mpr ⟨fd, hfmem, by simp [hfl, hfe]⟩
    simp [hany, hs, wrap_exceptions]
  · intro env pid pname rawlist hl hr hmiss hs
    obtain ⟨a, sz, pm, nm, rss, an, lk, hmem, hb, he⟩ := hmiss
    simp only [Process.get_memory_maps, hl]
    rw [mmap_loop_total _ _ _ hr]
    have hany : (rawlist.any fun item =>
        match item with
        | (_, _, _, nm, _, _, _) =>
          !py_startswith nm "[" &&
            match env.readlink_path pid nm with
            | .error _ => true
            | _ => false) = true :=
      List.any_eq_true.mpr ⟨(a, sz, pm, nm, rss, an, lk), hmem, by simp [hb, he]⟩
    simp [hany, hs, wrap_exceptions]

/-- Witness for C3: the process dies mid-enumeration in each enumerator. -/
theorem enumerators_raise_nsp_when_gone_witness :
    Process.get_threads goneEnv ⟨1, none⟩
      = Except.error (PyErr.noSuchProcess 1 none)
    ∧ Process.get_open_files goneEnv ⟨1, none⟩
      = Except.error (PyErr.noSuchProcess 1 none)
    ∧ Process.get_memory_maps goneEnv ⟨1, none⟩
      = Except.error (PyErr.noSuchProcess 1 none) :=
  ⟨enumerators_raise_nsp_when_gone.1 goneEnv 1 none [1] rfl
     (fun _ _ => Or.inl rfl) ⟨1, by simp, rfl⟩ rfl,
   enumerators_raise_nsp_when_gone.2.1 goneEnv 1 none [3] rfl
     (fun _ _ _ => Or.inl rfl) (fun _ => ⟨true, rfl⟩)
     ⟨3, by simp, rfl, rfl⟩ rfl,
   enumerators_raise_nsp_when_gone.2.2 goneEnv 1 none
     [(0, 0, "r", "f", 0, 0, 0)] rfl
     (fun _ _ _ _ _ _ _ _ _ => Or.inl rfl)
     ⟨0, 0, "r", "f", 0, 0, 0, by simp, rfl, rfl⟩ rfl⟩

/-- C4: an unsupported connection-kind filter makes `get_connections` fail
with the `ValueError` built from the kind, for every environment — no
underlying enumeration is consulted — and the error is not rewritten by
the classifier. -/
theorem get_connections_invalid_kind (env : Env) (pid : Int)
    (pname : Option String) (kind : String)
    (h : conn_tmap.lookup kind = none) :
    Process.get_connections env ⟨pid, pname⟩ kind
      = Except.error (PyErr.valueError (invalid_kind_msg kind)) := by
  simp only [Process.get_connections, h]
  rfl

/-- Witness for C4 at the unsupported kind `"bogus"`. -/
theorem get_connections_invalid_kind_witness :
    Process.get_connections demoEnv ⟨1, none⟩ "bogus"
      = Except.error (PyErr.valueError (invalid_kind_msg "bogus")) :=
  get_connections_invalid_kind demoEnv 1 none "bogus" rfl

/-- C5: with a valid kind and an empty raw connection list, the existence
check decides the outcome — `NoSuchProcess` when `os.stat` finds the
process gone, and the (possibly empty) result only when it still
exists. -/
theorem get_connections_empty_checks_existence (env : Env) (pid : Int)
    (pname : Option String) (kind : String) (families types : List Int)
    (hk : conn_tmap.lookup kind = some (families, types))
    (hraw : env.get_proc_connections pid families types = Except.ok []) :
    (env.stat_proc pid = Except.error (PyErr.envError ENOENT) →
       Process.get_connections env ⟨pid, pname⟩ kind
         = Except.error (PyErr.noSuchProcess pid pname))
    ∧ (env.stat_proc pid = Except.ok () →
       (AF_UNIX ∉ families →
          Process.get_connections env ⟨pid, pname⟩ kind = Except.ok [])
       ∧ (∀ ux, AF_UNIX ∈ families → env.unix_sockets pid = Except.ok ux →
          Process.get_connections env ⟨pid, pname⟩ kind = Except.ok ux)) := by
  constructor
  · intro hs
    simp [Process.get_connections, hk, hraw, hs, conn_loop, wrap_exceptions]
  · intro hs
    constructor
    · intro hu
      simp [Process.get_connections, hk, hraw, hs, conn_loop, hu, wrap_exceptions]
    · intro ux hu hux
      simp [Process.get_connections, hk, hraw, hs, conn_loop, hu, hux, wrap_exceptions]

/-- Witness for C5: kind `"tcp"` against an environment with no raw
connections and a live process. -/
theorem get_connections_empty_checks_existence_witness :
    Process.get_connections demoEnv ⟨1, none⟩ "tcp" = Except.ok [] :=
  ((get_connections_empty_checks_existence demoEnv 1 none "tcp"
      [AF_INET, AF_INET6] [SOCK_STREAM] rfl rfl).2 rfl).1 (by decide)

/-- When the connection loop succeeds, every record it returns got its
status by a successful lookup of the raw entry's code in the fixed
`TCP_STATUSES` table. -/
theorem conn_loop_maps_through_table (families types : List Int)
    (rawlist : List RawConn) (l : List ConnRec)
    (h : conn_loop families types rawlist = Except.ok l) :
    ∀ fd fam ty la ra st, (fd, fam, ty, la, ra, st) ∈ l →
      ∃ code, (fd, fam, ty, la, ra, code) ∈ rawlist
        ∧ TCP_STATUSES.lookup code = some st := by
  induction rawlist generalizing l with
  | nil =>
    simp only [conn_loop] at h
    cases h
    intro fd fam ty la ra st hmem
    simp at hmem
  | cons item rest ih =>
    obtain ⟨fd0, fam0, ty0, la0, ra0, c0⟩ := item
    by_cases hf : fam0 ∈ families
    · by_cases hty : ty0 ∈ types
      · simp only [conn_loop, if_pos hf, if_pos hty] at h
        cases hc0 : TCP_STATUSES.lookup c0 with
        | none => rw [hc0] at h; cases h
        | some st0 =>
          rw [hc0] at h
          cases hrest : conn_loop families types rest with
          | error e => rw [hrest] at h; cases h
          | ok l2 =>
            rw [hrest] at h
            cases h
            intro fd fam ty la ra st hmem
            rcases List.mem_cons.mp hmem with heq | hmem2
            · simp only [Prod.mk.injEq] at heq
              obtain ⟨h1, h2, h3, h4, h5, h6⟩ := heq
              exact ⟨c0, by simp [h1, h2, h3, h4, h5], by rw [h6]; exact hc0⟩
            · obtain ⟨code, hcm, hcl⟩ :=
                ih l2 hrest fd fam ty la ra st hmem2
              exact ⟨code, List.mem_cons_of_mem _ hcm, hcl⟩
      · simp only [conn_loop, if_pos hf, if_neg hty] at h
        intro fd fam ty la ra st hmem
        obtain ⟨code, hcm, hcl⟩ := ih l h fd fam ty la ra st hmem
        exact ⟨code, List.mem_cons_of_mem _ hcm, hcl⟩
    · simp only [conn_loop, if_neg hf] at h
      intro fd fam ty la ra st hmem
      obtain ⟨code, hcm, hcl⟩ := ih l h fd fam ty la ra st hmem
      exact ⟨code, List.mem_cons_of_mem _ hcm, hcl⟩

/-- When some raw entry passing the family/type filters carries a status
code outside the table, the connection loop fails with a `KeyError` on
such a code. -/
theorem conn_loop_bad_status (families types : List Int)
    (rawlist : List RawConn)
    (h : ∃ fd fam ty la ra code, (fd, fam, ty, la, ra, code) ∈ rawlist
           ∧ fam ∈ families ∧ ty ∈ types
           ∧ TCP_STATUSES.lookup code = none) :
    ∃ s, conn_loop families types rawlist = Except.error (PyErr.keyError s)
      ∧ TCP_STATUSES.lookup s = none := by
  induction rawlist with
  | nil =>
    obtain ⟨fd, fam, ty, la, ra, code, hmem, _⟩ := h
    simp at hmem
  | cons item rest ih =>
    obtain ⟨fd0, fam0, ty0, la0, ra0, c0⟩ := item
    obtain ⟨fd, fam, ty, la, ra, code, hmem, hf, hty, hcl⟩ := h
    by_cases hf0 : fam0 ∈ families
    · by_cases hty0 : ty0 ∈ types
      · cases hc0 : TCP_STATUSES.lookup c0 with
        | none =>
          exact ⟨c0, by simp [conn_loop, hf0, hty0, hc0], hc0⟩
        | some st0 =>
          have hrest : ∃ fd fam ty la ra code,
              (fd, fam, ty, la, ra, code) ∈ rest ∧ fam ∈ families
              ∧ ty ∈ types ∧ TCP_STATUSES.lookup code = none := by
            rcases List.mem_cons.mp hmem with heq | hmem2
            · simp only [Prod.mk.injEq] at heq
              obtain ⟨h1, h2, h3, h4, h5, h6⟩ := heq
              rw [h6, hc0] at hcl
              cases hcl
            · exact ⟨fd, fam, ty, la, ra, code, hmem2, hf, hty, hcl⟩
          obtain ⟨s, hloop, hs⟩ := ih hrest
          exact ⟨s, by simp [conn_loop, hf0, hty0, hc0, hloop], hs⟩
      · have hrest : ∃ fd fam ty la ra code,
            (fd, fam, ty, la, ra, code) ∈ rest ∧ fam ∈ families
            ∧ ty ∈ types ∧ TCP_STATUSES.lookup code = none := by
          rcases List.mem_cons.mp hmem with heq | hmem2
          · simp only [Prod.mk.injEq] at heq
            obtain ⟨h1, h2, h3, h4, h5, h6⟩ := heq
            rw [h3] at hty
            exact absurd hty hty0
          · exact ⟨fd, fam, ty, la, ra, code, hmem2, hf, hty, hcl⟩
        obtain ⟨s, hloop, hs⟩ := ih hrest
        exact ⟨s, by simp [conn_loop, hf0, hty0, hloop], hs⟩
    · have hrest : ∃ fd fam ty la ra code,
          (fd, fam, ty, la, ra, code) ∈ rest ∧ fam ∈ families
          ∧ ty ∈ types ∧ TCP_STATUSES.lookup code = none := by
        rcases List.mem_cons.mp hmem with heq | hmem2
        · simp only [Prod.mk.injEq] at heq
          obtain ⟨h1, h2, h3, h4, h5, h6⟩ := heq
          rw [h2] at hf
          exact absurd hf hf0
        · exact ⟨fd, fam, ty, la, ra, code, hmem2, hf, hty, hcl⟩
      obtain ⟨s, hloop, hs⟩ := ih hrest
      exact ⟨s, by simp [conn_loop, hf0, hloop], hs⟩

/-- C6: every status of a returned (non-unix) connection record comes from a
successful lookup of the raw code in the fixed `TCP_STATUSES` table, and
a filtered raw entry with a code outside the table makes the whole call
propagate a `KeyError` on an unmapped code — never a silent "unknown"
status. -/
theorem get_connections_status_table :
    (∀ (families types : List Int) (rawlist : List RawConn) (l : List ConnRec),
       conn_loop families types rawlist = Except.ok l →
       ∀ fd fam ty la ra st, (fd, fam, ty, la, ra, st) ∈ l →
         ∃ code, (fd, fam, ty, la, ra, code) ∈ rawlist
           ∧ TCP_STATUSES.lookup code = some st)
    ∧ (∀ (env : Env) (pid : Int) (pname : Option String) (kind : String)
         (families types : List Int) (rawlist : List RawConn),
       conn_tmap.lookup kind = some (families, types) →
       env.get_proc_connections pid families types = Except.ok rawlist →
       (∃ fd fam ty la ra code, (fd, fam, ty, la, ra, code) ∈ rawlist
          ∧ fam ∈ families ∧ ty ∈ types
          ∧ TCP_STATUSES.lookup code = none) →
       ∃ s, Process.get_connections env ⟨pid, pname⟩ kind
              = Except.error (PyErr.keyError s)
         ∧ TCP_STATUSES.lookup s = none) := by
  constructor
  · exact conn_loop_maps_through_table
  · intro env pid pname kind families types rawlist hk hraw hbad
    have hne : rawlist ≠ [] := by
      obtain ⟨fd, fam, ty, la, ra, code, hmem, _⟩ := hbad
      intro heq
      rw [heq] at hmem
      simp at hmem
    obtain ⟨s, hloop, hs⟩ := conn_loop_bad_status families types rawlist hbad
    refine ⟨s, ?_, hs⟩
    simp [Process.get_connections, hk, hraw, hne, hloop, wrap_exceptions]

/-- Witness for C6: one raw entry with the unmapped status code 99 makes the
call fail with a `KeyError` on an unmapped code. -/
theorem get_connections_status_table_witness :
    ∃ s, Process.get_connections connBadEnv ⟨1, none⟩ "tcp"
           = Except.error (PyErr.keyError s)
      ∧ TCP_STATUSES.lookup s = none :=
  get_connections_status_table.2 connBadEnv 1 none "tcp"
    [AF_INET, AF_INET6] [SOCK_STREAM]
    [(4, AF_INET, SOCK_STREAM, "a", "b", 99)] rfl rfl
    ⟨4, AF_INET, SOCK_STREAM, "a", "b", 99, by simp, by simp,
     by simp, rfl⟩

end Pssunos
